import Mathlib

/-!
# PharmaRec AI — Reorder Suggestion Engine, formal model

This development embeds the reorder-suggestion engine of the PharmaRec AI
pharmacy application and the frontend API client's reorder endpoint, and
proves the behavioural properties stated in the specification.

The backend engine (`backend/app/services/reorder_engine.py`) is not present
in the source tree; only its documentation, its frontend consumers and the
`ReorderSuggestion` output type are.  The engine definitions below are
therefore modelled from the specification's computation rules (§4.1).
The frontend API client (`frontend/src/lib/api.ts`) is present and is
embedded directly.
-/

namespace PharmaRec

/-- Modelled from the spec: `SaleRecord` — immutable historical fact
`{date, quantity}` (the backend sales model is missing from the sources). -/
structure SaleRecord where
  date : Int
  quantity : Nat
  deriving DecidableEq, Repr

/-- Modelled from the spec: `StockState` — current snapshot for one medicine.
The spec lists `{medicine_id, current_stock, reorder_level}`; the medicine
name is carried along so the output `ReorderSuggestion` can be fully
populated, as the spec requires. -/
structure StockState where
  medicine_id : Nat
  medicine_name : String
  current_stock : Int
  reorder_level : Int
  deriving DecidableEq, Repr

/-- The priority bands, from the `ReorderSuggestion` interface in the
frontend type definitions (`priority: "CRITICAL" | "HIGH" | "MEDIUM" | "LOW"`). -/
inductive Priority where
  | CRITICAL
  | HIGH
  | MEDIUM
  | LOW
  deriving DecidableEq, Repr

/-- The engine's output, from the `ReorderSuggestion` interface in the
frontend type definitions.  `daily_average` is kept as an exact rational:
the spec says the unrounded value drives classification and order-quantity
math (rounding for display is out of scope). -/
structure ReorderSuggestion where
  medicine_id : Nat
  medicine_name : String
  current_stock : Int
  daily_average : ℚ
  suggested_order_qty : Int
  priority : Priority
  reorder_level : Int
  deriving DecidableEq, Repr

/-- Modelled from the spec: the single error kind covering all precondition
violations (§7). -/
inductive InvalidInputError where
  | invalidInput
  deriving DecidableEq, Repr

/-- Modelled from the spec: the explicit configuration struct holding the
`safety_factor` policy constant (§9 instructs it be passed in explicitly). -/
structure EngineConfig where
  safety_factor : ℚ
  deriving DecidableEq, Repr

/-- The documented example value of the safety factor (spec: "e.g. 1.5"). -/
def defaultConfig : EngineConfig := { safety_factor := 3 / 2 }

/-- Total quantity sold over the window. -/
def windowTotal (w : List SaleRecord) : Nat :=
  (w.map (fun s => s.quantity)).sum

/-- Modelled from the spec, step 1:
`daily_average = sum(quantity for each SaleRecord in sales_window) / lookback_days`;
the denominator is the requested window length, not the count of days with
sales. -/
def daily_average (w : List SaleRecord) (lookback_days : Int) : ℚ :=
  (windowTotal w : ℚ) / (lookback_days : ℚ)

/-- Modelled from the spec, steps 2-4:
`target_stock = daily_average * horizon_days + daily_average * safety_factor`. -/
def target_stock (cfg : EngineConfig) (da : ℚ) (horizon_days : Int) : ℚ :=
  da * (horizon_days : ℚ) + da * cfg.safety_factor

/-- Modelled from the spec, step 5:
`suggested_order_qty = max(0, ceil(target_stock - current_stock))`. -/
def suggested_qty (current_stock : Int) (target : ℚ) : Int :=
  max 0 ⌈target - (current_stock : ℚ)⌉

/-- Modelled from the spec, step 6: priority classification, evaluated in
order with first match winning. -/
def classify (current_stock reorder_level : Int) (da target : ℚ) : Priority :=
  if current_stock ≤ 0 ∨ ((current_stock : ℚ) < da * 2 ∧ 0 < da) then .CRITICAL
  else if current_stock ≤ reorder_level then .HIGH
  else if (current_stock : ℚ) < target then .MEDIUM
  else .LOW

/-- The full per-medicine computation on validated inputs. -/
def computeSuggestion (cfg : EngineConfig) (stock : StockState)
    (w : List SaleRecord) (lookback_days horizon_days : Int) : ReorderSuggestion :=
  let da := daily_average w lookback_days
  let target := target_stock cfg da horizon_days
  { medicine_id := stock.medicine_id
    medicine_name := stock.medicine_name
    current_stock := stock.current_stock
    daily_average := da
    suggested_order_qty := suggested_qty stock.current_stock target
    priority := classify stock.current_stock stock.reorder_level da target
    reorder_level := stock.reorder_level }

/-- Modelled from the spec: `suggest` — validates the preconditions of §4.1
(failing with `InvalidInputError` exactly when `lookback_days < 1`,
`horizon_days < 1`, `current_stock < 0` or `reorder_level < 0`) and then
runs the pure computation. -/
def suggest (cfg : EngineConfig) (stock : StockState) (w : List SaleRecord)
    (lookback_days horizon_days : Int) : Except InvalidInputError ReorderSuggestion :=
  if lookback_days < 1 ∨ horizon_days < 1 ∨
      stock.current_stock < 0 ∨ stock.reorder_level < 0 then
    .error .invalidInput
  else
    .ok (computeSuggestion cfg stock w lookback_days horizon_days)

/-- Numeric urgency rank of a priority band (larger is more severe). -/
def severity : Priority → Nat
  | .CRITICAL => 3
  | .HIGH => 2
  | .MEDIUM => 1
  | .LOW => 0

/-- Modelled from the spec: the epsilon guarding the days-of-cover division
in the batch tie-break. -/
def epsilon : ℚ := 1 / 1000000

/-- Days-of-cover tie-break key: `current_stock / max(daily_average, epsilon)`. -/
def urgency (s : ReorderSuggestion) : ℚ :=
  (s.current_stock : ℚ) / max s.daily_average epsilon

/-- The batch output order: strictly more severe priority first; within a
priority band, fewest days of cover first. -/
def moreUrgent (a b : ReorderSuggestion) : Prop :=
  severity b.priority < severity a.priority ∨
    (severity a.priority = severity b.priority ∧ urgency a ≤ urgency b)

instance : DecidableRel moreUrgent := fun a b => by
  unfold moreUrgent; infer_instance

instance : IsTotal ReorderSuggestion moreUrgent := by
  constructor
  intro a b
  rcases lt_trichotomy (severity a.priority) (severity b.priority) with h | h | h
  · exact Or.inr (Or.inl h)
  · rcases le_total (urgency a) (urgency b) with hu | hu
    · exact Or.inl (Or.inr ⟨h, hu⟩)
    · exact Or.inr (Or.inr ⟨h.symm, hu⟩)
  · exact Or.inl (Or.inl h)

instance : IsTrans ReorderSuggestion moreUrgent := by
  constructor
  intro a b c hab hbc
  rcases hab with h1 | ⟨h1, hu1⟩ <;> rcases hbc with h2 | ⟨h2, hu2⟩
  · exact Or.inl (h2.trans h1)
  · exact Or.inl (h2 ▸ h1)
  · exact Or.inl (h2.trans_eq h1.symm)
  · exact Or.inr ⟨h1.trans h2, hu1.trans hu2⟩

/-- Modelled from the spec: `suggest_all` — validates every entry, computes a
suggestion per medicine, and returns them sorted by descending priority
severity, ties broken by ascending days of cover. -/
def suggest_all (cfg : EngineConfig) (stocks : List (StockState × List SaleRecord))
    (lookback_days horizon_days : Int) :
    Except InvalidInputError (List ReorderSuggestion) :=
  if ∀ p ∈ stocks, ¬(lookback_days < 1 ∨ horizon_days < 1 ∨
      p.1.current_stock < 0 ∨ p.1.reorder_level < 0) then
    .ok (List.insertionSort moreUrgent
      (stocks.map (fun p => computeSuggestion cfg p.1 p.2 lookback_days horizon_days)))
  else
    .error .invalidInput

/-- A sequence of independent engine invocations: the engine is stateless, so
a batch of calls is just the pointwise application of `suggest`. -/
def suggestSeq (cfg : EngineConfig)
    (reqs : List (StockState × List SaleRecord × Int × Int)) :
    List (Except InvalidInputError ReorderSuggestion) :=
  reqs.map fun q => suggest cfg q.1 q.2.1 q.2.2.1 q.2.2.2

/-! ## Shared lemmas -/

theorem suggest_ok (cfg : EngineConfig) (stock : StockState) (w : List SaleRecord)
    (lb hz : Int) (h1 : 1 ≤ lb) (h2 : 1 ≤ hz)
    (h3 : 0 ≤ stock.current_stock) (h4 : 0 ≤ stock.reorder_level) :
    suggest cfg stock w lb hz = .ok (computeSuggestion cfg stock w lb hz) := by
  unfold suggest
  rw [if_neg (by omega)]

theorem daily_average_nonneg (w : List SaleRecord) (lb : Int) (h : 1 ≤ lb) :
    0 ≤ daily_average w lb := by
  unfold daily_average
  have : (0 : ℚ) ≤ (lb : ℚ) := by exact_mod_cast (by omega : (0 : Int) ≤ lb)
  exact div_nonneg (Nat.cast_nonneg _) this

theorem suggested_qty_nonneg (cs : Int) (t : ℚ) : 0 ≤ suggested_qty cs t :=
  le_max_left 0 _

theorem suggested_qty_covers (cs : Int) (t : ℚ) :
    t ≤ (cs : ℚ) + (suggested_qty cs t : ℚ) := by
  unfold suggested_qty
  have h1 : t - (cs : ℚ) ≤ (⌈t - (cs : ℚ)⌉ : ℚ) := Int.le_ceil _
  have h2 : ((⌈t - (cs : ℚ)⌉ : Int) : ℚ) ≤ ((max 0 ⌈t - (cs : ℚ)⌉ : Int) : ℚ) := by
    exact_mod_cast le_max_right 0 ⌈t - (cs : ℚ)⌉
  linarith

theorem suggested_qty_antitone (cs cs' : Int) (t : ℚ) (h : cs ≤ cs') :
    suggested_qty cs' t ≤ suggested_qty cs t := by
  unfold suggested_qty
  have hq : (cs : ℚ) ≤ (cs' : ℚ) := by exact_mod_cast h
  exact max_le_max le_rfl (Int.ceil_mono (by linarith))

theorem suggested_qty_mono_target (cs : Int) (t t' : ℚ) (h : t ≤ t') :
    suggested_qty cs t ≤ suggested_qty cs t' := by
  unfold suggested_qty
  exact max_le_max le_rfl (Int.ceil_mono (by linarith))

theorem severity_classify_antitone (cs cs' rl : Int) (da t : ℚ) (h : cs ≤ cs') :
    severity (classify cs' rl da t) ≤ severity (classify cs rl da t) := by
  have hq : (cs : ℚ) ≤ (cs' : ℚ) := by exact_mod_cast h
  unfold classify
  by_cases hc1 : cs' ≤ 0 ∨ ((cs' : ℚ) < da * 2 ∧ 0 < da)
  · have hc1' : cs ≤ 0 ∨ ((cs : ℚ) < da * 2 ∧ 0 < da) := by
      rcases hc1 with ha | ⟨ha, hb⟩
      · exact Or.inl (by omega)
      · exact Or.inr ⟨lt_of_le_of_lt hq ha, hb⟩
    rw [if_pos hc1, if_pos hc1']
  · rw [if_neg hc1]
    by_cases hc2 : cs' ≤ rl
    · have hc2' : cs ≤ rl := by omega
      rw [if_pos hc2]
      by_cases hc1' : cs ≤ 0 ∨ ((cs : ℚ) < da * 2 ∧ 0 < da)
      · rw [if_pos hc1']; simp [severity]
      · rw [if_neg hc1', if_pos hc2']
    · rw [if_neg hc2]
      by_cases hc3 : (cs' : ℚ) < t
      · have hc3' : (cs : ℚ) < t := lt_of_le_of_lt hq hc3
        rw [if_pos hc3]
        by_cases hc1' : cs ≤ 0 ∨ ((cs : ℚ) < da * 2 ∧ 0 < da)
        · rw [if_pos hc1']; simp [severity]
        · rw [if_neg hc1']
          by_cases hc2' : cs ≤ rl
          · rw [if_pos hc2']; simp [severity]
          · rw [if_neg hc2', if_pos hc3']
      · rw [if_neg hc3]
        simp only [severity]
        exact Nat.zero_le _

@[simp] theorem computeSuggestion_daily_average (cfg : EngineConfig) (stock : StockState)
    (w : List SaleRecord) (lb hz : Int) :
    (computeSuggestion cfg stock w lb hz).daily_average = daily_average w lb := rfl

@[simp] theorem computeSuggestion_qty (cfg : EngineConfig) (stock : StockState)
    (w : List SaleRecord) (lb hz : Int) :
    (computeSuggestion cfg stock w lb hz).suggested_order_qty =
      suggested_qty stock.current_stock (target_stock cfg (daily_average w lb) hz) := rfl

@[simp] theorem computeSuggestion_priority (cfg : EngineConfig) (stock : StockState)
    (w : List SaleRecord) (lb hz : Int) :
    (computeSuggestion cfg stock w lb hz).priority =
      classify stock.current_stock stock.reorder_level (daily_average w lb)
        (target_stock cfg (daily_average w lb) hz) := rfl

@[simp] theorem computeSuggestion_current_stock (cfg : EngineConfig) (stock : StockState)
    (w : List SaleRecord) (lb hz : Int) :
    (computeSuggestion cfg stock w lb hz).current_stock = stock.current_stock := rfl

theorem safety_factor_nonneg : (0 : ℚ) ≤ defaultConfig.safety_factor := by
  norm_num [defaultConfig]

/-! ## Claims -/

/-- C1: on every valid input, `suggest` returns
`suggested_order_qty = max(0, ceil(target_stock - current_stock))` where
`daily_average` is the window total divided by the full lookback length and
`target_stock = daily_average * horizon_days + daily_average * safety_factor`. -/
theorem C1_order_qty_formula (cfg : EngineConfig) (stock : StockState)
    (w : List SaleRecord) (lb hz : Int) (h1 : 1 ≤ lb) (h2 : 1 ≤ hz)
    (h3 : 0 ≤ stock.current_stock) (h4 : 0 ≤ stock.reorder_level) :
    ∃ r, suggest cfg stock w lb hz = Except.ok r ∧
      r.daily_average = (windowTotal w : ℚ) / (lb : ℚ) ∧
      r.suggested_order_qty =
        max 0 ⌈r.daily_average * (hz : ℚ) + r.daily_average * cfg.safety_factor
          - (stock.current_stock : ℚ)⌉ := by
  refine ⟨_, suggest_ok cfg stock w lb hz h1 h2 h3 h4, ?_, ?_⟩
  · rfl
  · rfl

/-- C1 witness: the spec's worked example — stock 5, reorder level 10, 70
units sold over a 7-day lookback, 7-day horizon, safety factor 1.5 gives
`daily_average = 10` and `suggested_order_qty = 80`. -/
theorem C1_order_qty_formula_witness :
    ∃ r, suggest defaultConfig ⟨1, "Para", 5, 10⟩ [⟨0, 70⟩] 7 7 = Except.ok r ∧
      r.daily_average = (windowTotal [⟨0, 70⟩] : ℚ) / ((7 : Int) : ℚ) ∧
      r.suggested_order_qty =
        max 0 ⌈r.daily_average * ((7 : Int) : ℚ) + r.daily_average * defaultConfig.safety_factor
          - (((5 : Int)) : ℚ)⌉ :=
  C1_order_qty_formula defaultConfig ⟨1, "Para", 5, 10⟩ [⟨0, 70⟩] 7 7
    (by decide) (by decide) (by decide) (by decide)

/-- C2: on every valid input, the priority is the first matching band:
CRITICAL if `current_stock ≤ 0` or (`current_stock < daily_average * 2` and
`daily_average > 0`); else HIGH if `current_stock ≤ reorder_level`; else
MEDIUM if `current_stock < target_stock`; else LOW. -/
theorem C2_priority_bands (cfg : EngineConfig) (stock : StockState)
    (w : List SaleRecord) (lb hz : Int) (h1 : 1 ≤ lb) (h2 : 1 ≤ hz)
    (h3 : 0 ≤ stock.current_stock) (h4 : 0 ≤ stock.reorder_level) :
    ∃ r, suggest cfg stock w lb hz = Except.ok r ∧
      r.priority =
        (if stock.current_stock ≤ 0 ∨
            ((stock.current_stock : ℚ) < daily_average w lb * 2 ∧ 0 < daily_average w lb) then
          Priority.CRITICAL
        else if stock.current_stock ≤ stock.reorder_level then Priority.HIGH
        else if (stock.current_stock : ℚ) <
            daily_average w lb * (hz : ℚ) + daily_average w lb * cfg.safety_factor then
          Priority.MEDIUM
        else Priority.LOW) := by
  exact ⟨_, suggest_ok cfg stock w lb hz h1 h2 h3 h4, rfl⟩

/-- C2 witness: on the spec's worked example the band is CRITICAL
(stock 5 is below two days of the average demand 10). -/
theorem C2_priority_bands_witness :
    ∃ r, suggest defaultConfig ⟨1, "Para", 5, 10⟩ [⟨0, 70⟩] 7 7 = Except.ok r ∧
      r.priority =
        (if (5 : Int) ≤ 0 ∨
            (((5 : Int) : ℚ) < daily_average [⟨0, 70⟩] 7 * 2 ∧ 0 < daily_average [⟨0, 70⟩] 7) then
          Priority.CRITICAL
        else if (5 : Int) ≤ (10 : Int) then Priority.HIGH
        else if (((5 : Int)) : ℚ) <
            daily_average [⟨0, 70⟩] 7 * ((7 : Int) : ℚ)
              + daily_average [⟨0, 70⟩] 7 * defaultConfig.safety_factor then
          Priority.MEDIUM
        else Priority.LOW) :=
  C2_priority_bands defaultConfig ⟨1, "Para", 5, 10⟩ [⟨0, 70⟩] 7 7
    (by decide) (by decide) (by decide) (by decide)

/-- C4: `suggest` fails (with the single error kind `InvalidInputError`)
exactly when `lookback_days < 1`, `horizon_days < 1`, `current_stock < 0` or
`reorder_level < 0`; in particular it never fails merely because the sales
window is empty. -/
theorem C4_error_iff (cfg : EngineConfig) (stock : StockState)
    (w : List SaleRecord) (lb hz : Int) :
    (∃ e, suggest cfg stock w lb hz = Except.error e) ↔
      (lb < 1 ∨ hz < 1 ∨ stock.current_stock < 0 ∨ stock.reorder_level < 0) := by
  unfold suggest
  split_ifs with h
  · exact iff_of_true ⟨.invalidInput, rfl⟩ h
  · refine iff_of_false ?_ h
    rintro ⟨e, he⟩
    exact he

/-- C3 counterexample: with stock 5, reorder level 10 and an empty sales
window, the stock (5) already exceeds the projected demand plus safety margin
(target_stock = 0), yet the priority is HIGH, not LOW as the claim asserts. -/
theorem C3_counterexample :
    (suggest defaultConfig ⟨1, "A", 5, 10⟩ [] 7 7).toOption =
      some ⟨1, "A", 5, 0, 0, Priority.HIGH, 10⟩ ∧
    target_stock defaultConfig (daily_average [] 7) 7 ≤ ((5 : Int) : ℚ) ∧
    Priority.HIGH ≠ Priority.LOW := by
  refine ⟨?_, ?_, by decide⟩
  · simp [suggest, computeSuggestion, daily_average, windowTotal, target_stock, suggested_qty,
      classify, defaultConfig, Except.toOption, Int.ceil_neg, Int.ceil_ofNat]
  · simp [target_stock, daily_average, windowTotal]

/-- C3 (amended): for every valid input with a non-negative safety factor the
returned quantity is non-negative and, together with the current stock, covers
at least the projected horizon demand; and when the current stock reaches the
target and no more-urgent band (CRITICAL, HIGH) applies, the priority is LOW
and the order quantity is 0. -/
theorem C3_amended_invariants (cfg : EngineConfig) (stock : StockState)
    (w : List SaleRecord) (lb hz : Int) (hsf : 0 ≤ cfg.safety_factor)
    (h1 : 1 ≤ lb) (h2 : 1 ≤ hz)
    (h3 : 0 ≤ stock.current_stock) (h4 : 0 ≤ stock.reorder_level) :
    ∃ r, suggest cfg stock w lb hz = Except.ok r ∧
      0 ≤ r.suggested_order_qty ∧
      daily_average w lb * (hz : ℚ) ≤
        (stock.current_stock : ℚ) + (r.suggested_order_qty : ℚ) ∧
      (target_stock cfg (daily_average w lb) hz ≤ (stock.current_stock : ℚ) →
        stock.reorder_level < stock.current_stock →
        ¬((stock.current_stock : ℚ) < daily_average w lb * 2 ∧ 0 < daily_average w lb) →
        r.priority = Priority.LOW ∧ r.suggested_order_qty = 0) := by
  refine ⟨_, suggest_ok cfg stock w lb hz h1 h2 h3 h4, ?_, ?_, ?_⟩
  · simpa using suggested_qty_nonneg stock.current_stock
      (target_stock cfg (daily_average w lb) hz)
  · have hcov := suggested_qty_covers stock.current_stock
      (target_stock cfg (daily_average w lb) hz)
    have hda := daily_average_nonneg w lb h1
    have hsf' : 0 ≤ daily_average w lb * cfg.safety_factor := mul_nonneg hda hsf
    rw [computeSuggestion_qty]
    have ht : daily_average w lb * (hz : ℚ) ≤ target_stock cfg (daily_average w lb) hz := by
      unfold target_stock; linarith
    linarith
  · intro ht hrl hcrit
    have hA : ¬(stock.current_stock ≤ 0 ∨
        ((stock.current_stock : ℚ) < daily_average w lb * 2 ∧ 0 < daily_average w lb)) := by
      rintro (h | h)
      · omega
      · exact hcrit h
    have hB : ¬(stock.current_stock ≤ stock.reorder_level) := by omega
    have hC : ¬((stock.current_stock : ℚ) < target_stock cfg (daily_average w lb) hz) :=
      not_lt.mpr ht
    constructor
    · rw [computeSuggestion_priority]
      unfold classify
      rw [if_neg hA, if_neg hB, if_neg hC]
    · rw [computeSuggestion_qty]
      unfold suggested_qty
      have hle : ⌈target_stock cfg (daily_average w lb) hz - (stock.current_stock : ℚ)⌉ ≤ 0 :=
        Int.ceil_le.mpr (by push_cast; linarith)
      exact max_eq_left hle

/-- C3 amended witness: a concrete well-stocked medicine (stock 100, reorder
level 10, one sale of 7 over a 7-day lookback) gets quantity 0 and LOW. -/
theorem C3_amended_invariants_witness :
    ∃ r, suggest defaultConfig ⟨1, "A", 100, 10⟩ [⟨0, 7⟩] 7 7 = Except.ok r ∧
      0 ≤ r.suggested_order_qty ∧
      daily_average [⟨0, 7⟩] 7 * ((7 : Int) : ℚ) ≤
        (((100 : Int)) : ℚ) + (r.suggested_order_qty : ℚ) ∧
      (target_stock defaultConfig (daily_average [⟨0, 7⟩] 7) 7 ≤ (((100 : Int)) : ℚ) →
        (10 : Int) < 100 →
        ¬((((100 : Int)) : ℚ) < daily_average [⟨0, 7⟩] 7 * 2 ∧ 0 < daily_average [⟨0, 7⟩] 7) →
        r.priority = Priority.LOW ∧ r.suggested_order_qty = 0) :=
  C3_amended_invariants defaultConfig ⟨1, "A", 100, 10⟩ [⟨0, 7⟩] 7 7
    safety_factor_nonneg (by decide) (by decide) (by decide) (by decide)

/-- C5 counterexample: with stock 0, reorder level 5 and an empty sales
window the daily average is 0 and `current_stock ≤ reorder_level`, but the
priority is CRITICAL (the `current_stock ≤ 0` band fires first), not HIGH as
the claim asserts. -/
theorem C5_counterexample :
    (suggest defaultConfig ⟨1, "A", 0, 5⟩ [] 7 7).toOption =
      some ⟨1, "A", 0, 0, 0, Priority.CRITICAL, 5⟩ ∧
    daily_average [] 7 = 0 ∧ ((0 : Int) ≤ 5) ∧
    Priority.CRITICAL ≠ Priority.HIGH := by
  refine ⟨?_, ?_, by decide, by decide⟩
  · simp [suggest, computeSuggestion, daily_average, windowTotal, target_stock, suggested_qty,
      classify, defaultConfig, Except.toOption]
  · simp [daily_average, windowTotal]

/-- C5 (amended): on every valid input with zero daily average the order
quantity is 0; the priority is CRITICAL when `current_stock = 0`, HIGH when
`0 < current_stock ≤ reorder_level`, and LOW when
`current_stock > reorder_level`. -/
theorem C5_amended_zero_demand (cfg : EngineConfig) (stock : StockState)
    (w : List SaleRecord) (lb hz : Int) (h1 : 1 ≤ lb) (h2 : 1 ≤ hz)
    (h3 : 0 ≤ stock.current_stock) (h4 : 0 ≤ stock.reorder_level)
    (hda : daily_average w lb = 0) :
    ∃ r, suggest cfg stock w lb hz = Except.ok r ∧
      r.suggested_order_qty = 0 ∧
      (stock.current_stock = 0 → r.priority = Priority.CRITICAL) ∧
      (0 < stock.current_stock → stock.current_stock ≤ stock.reorder_level →
        r.priority = Priority.HIGH) ∧
      (stock.reorder_level < stock.current_stock → r.priority = Priority.LOW) := by
  have htarget : target_stock cfg (daily_average w lb) hz = 0 := by
    rw [hda]; unfold target_stock; ring
  refine ⟨_, suggest_ok cfg stock w lb hz h1 h2 h3 h4, ?_, ?_, ?_, ?_⟩
  · rw [computeSuggestion_qty, htarget]
    unfold suggested_qty
    refine max_eq_left (Int.ceil_le.mpr ?_)
    push_cast
    have : (0 : ℚ) ≤ (stock.current_stock : ℚ) := by exact_mod_cast h3
    linarith
  · intro h0
    rw [computeSuggestion_priority]
    unfold classify
    rw [if_pos (Or.inl (by omega))]
  · intro hpos hle
    rw [computeSuggestion_priority, hda]
    unfold classify
    rw [if_neg ?hA, if_pos hle]
    case hA =>
      rintro (h | ⟨-, h⟩)
      · omega
      · exact absurd h (by norm_num)
  · intro hgt
    rw [computeSuggestion_priority, htarget, hda]
    unfold classify
    rw [if_neg ?hB, if_neg (by omega), if_neg ?hC]
    case hB =>
      rintro (h | ⟨-, h⟩)
      · omega
      · exact absurd h (by norm_num)
    case hC =>
      exact not_lt.mpr (by exact_mod_cast h3)

/-- C5 amended witness: stock 3, reorder level 5, empty window gives
quantity 0, and the HIGH branch applies since `0 < 3 ≤ 5`. -/
theorem C5_amended_zero_demand_witness :
    ∃ r, suggest defaultConfig ⟨1, "A", 3, 5⟩ [] 7 7 = Except.ok r ∧
      r.suggested_order_qty = 0 ∧
      ((3 : Int) = 0 → r.priority = Priority.CRITICAL) ∧
      ((0 : Int) < 3 → (3 : Int) ≤ 5 → r.priority = Priority.HIGH) ∧
      ((5 : Int) < 3 → r.priority = Priority.LOW) :=
  C5_amended_zero_demand defaultConfig ⟨1, "A", 3, 5⟩ [] 7 7
    (by decide) (by decide) (by decide) (by decide)
    (by simp [daily_average, windowTotal])

/-- C6: on every valid batch, `suggest_all` returns the per-medicine
suggestions sorted by descending priority severity, ties broken by ascending
days of cover (`current_stock / max(daily_average, epsilon)`), and the output
of any permutation of the input is a permutation of the same suggestions,
still sorted. -/
theorem C6_suggest_all_ordered (cfg : EngineConfig) (lb hz : Int)
    (stocks stocks' : List (StockState × List SaleRecord))
    (hperm : stocks.Perm stocks')
    (hvalid : ∀ p ∈ stocks,
      ¬(lb < 1 ∨ hz < 1 ∨ p.1.current_stock < 0 ∨ p.1.reorder_level < 0)) :
    ∃ out out', suggest_all cfg stocks lb hz = Except.ok out ∧
      suggest_all cfg stocks' lb hz = Except.ok out' ∧
      out.Sorted moreUrgent ∧ out'.Sorted moreUrgent ∧
      out.Perm (stocks.map fun p => computeSuggestion cfg p.1 p.2 lb hz) ∧
      out.Perm out' := by
  have hvalid' : ∀ p ∈ stocks',
      ¬(lb < 1 ∨ hz < 1 ∨ p.1.current_stock < 0 ∨ p.1.reorder_level < 0) :=
    fun p hp => hvalid p (hperm.mem_iff.mpr hp)
  unfold suggest_all
  rw [if_pos hvalid, if_pos hvalid']
  refine ⟨_, _, rfl, rfl, List.sorted_insertionSort moreUrgent _,
    List.sorted_insertionSort moreUrgent _, List.perm_insertionSort moreUrgent _, ?_⟩
  exact (List.perm_insertionSort moreUrgent _).trans
    ((hperm.map _).trans (List.perm_insertionSort moreUrgent _).symm)

/-- C6 witness: a two-medicine batch and its transposition. -/
theorem C6_suggest_all_ordered_witness :
    ∃ out out',
      suggest_all defaultConfig [(⟨1, "A", 100, 10⟩, []), (⟨2, "B", 0, 5⟩, [])] 7 7 =
        Except.ok out ∧
      suggest_all defaultConfig [(⟨2, "B", 0, 5⟩, []), (⟨1, "A", 100, 10⟩, [])] 7 7 =
        Except.ok out' ∧
      out.Sorted moreUrgent ∧ out'.Sorted moreUrgent ∧
      out.Perm ([(⟨1, "A", 100, 10⟩, []), (⟨2, "B", 0, 5⟩, [])].map
        fun p => computeSuggestion defaultConfig p.1 p.2 7 7) ∧
      out.Perm out' :=
  C6_suggest_all_ordered defaultConfig 7 7
    [(⟨1, "A", 100, 10⟩, []), (⟨2, "B", 0, 5⟩, [])]
    [(⟨2, "B", 0, 5⟩, []), (⟨1, "A", 100, 10⟩, [])]
    (List.Perm.swap ((⟨2, "B", 0, 5⟩, []) : StockState × List SaleRecord)
      ((⟨1, "A", 100, 10⟩, []) : StockState × List SaleRecord) [])
    (by decide)

/-- C7: holding the sales window, reorder level, lookback and horizon fixed,
strictly increasing the current stock never increases the suggested order
quantity and never increases the priority severity. -/
theorem C7_monotone_in_stock (cfg : EngineConfig) (id : Nat) (name : String)
    (cs cs' rl : Int) (w : List SaleRecord) (lb hz : Int)
    (h1 : 1 ≤ lb) (h2 : 1 ≤ hz) (h3 : 0 ≤ cs) (h4 : 0 ≤ rl) (hlt : cs < cs') :
    ∃ r r', suggest cfg ⟨id, name, cs, rl⟩ w lb hz = Except.ok r ∧
      suggest cfg ⟨id, name, cs', rl⟩ w lb hz = Except.ok r' ∧
      r'.suggested_order_qty ≤ r.suggested_order_qty ∧
      severity r'.priority ≤ severity r.priority := by
  refine ⟨_, _, suggest_ok cfg ⟨id, name, cs, rl⟩ w lb hz h1 h2 h3 h4,
    suggest_ok cfg ⟨id, name, cs', rl⟩ w lb hz h1 h2 (show (0 : Int) ≤ cs' by omega) h4,
    ?_, ?_⟩
  · rw [computeSuggestion_qty, computeSuggestion_qty]
    exact suggested_qty_antitone cs cs' _ (le_of_lt hlt)
  · rw [computeSuggestion_priority, computeSuggestion_priority]
    exact severity_classify_antitone cs cs' rl _ _ (le_of_lt hlt)

/-- C7 witness: raising stock from 5 to 6 on the spec's worked example. -/
theorem C7_monotone_in_stock_witness :
    ∃ r r', suggest defaultConfig ⟨1, "Para", 5, 10⟩ [⟨0, 70⟩] 7 7 = Except.ok r ∧
      suggest defaultConfig ⟨1, "Para", 6, 10⟩ [⟨0, 70⟩] 7 7 = Except.ok r' ∧
      r'.suggested_order_qty ≤ r.suggested_order_qty ∧
      severity r'.priority ≤ severity r.priority :=
  C7_monotone_in_stock defaultConfig 1 "Para" 5 6 10 [⟨0, 70⟩] 7 7
    (by decide) (by decide) (by decide) (by decide) (by decide)

/-- C8: holding the stock state, lookback and horizon fixed (with a
non-negative safety factor), strictly increasing the total demand in the
sales window never decreases the suggested order quantity. -/
theorem C8_monotone_in_demand (cfg : EngineConfig) (stock : StockState)
    (w w' : List SaleRecord) (lb hz : Int) (hsf : 0 ≤ cfg.safety_factor)
    (h1 : 1 ≤ lb) (h2 : 1 ≤ hz)
    (h3 : 0 ≤ stock.current_stock) (h4 : 0 ≤ stock.reorder_level)
    (hdem : windowTotal w < windowTotal w') :
    ∃ r r', suggest cfg stock w lb hz = Except.ok r ∧
      suggest cfg stock w' lb hz = Except.ok r' ∧
      r.suggested_order_qty ≤ r'.suggested_order_qty := by
  refine ⟨_, _, suggest_ok cfg stock w lb hz h1 h2 h3 h4,
    suggest_ok cfg stock w' lb hz h1 h2 h3 h4, ?_⟩
  rw [computeSuggestion_qty, computeSuggestion_qty]
  apply suggested_qty_mono_target
  have hda : daily_average w lb ≤ daily_average w' lb := by
    unfold daily_average
    have hlb : (0 : ℚ) < (lb : ℚ) := by exact_mod_cast (by omega : (0 : Int) < lb)
    have hw : (windowTotal w : ℚ) ≤ (windowTotal w' : ℚ) := by
      exact_mod_cast le_of_lt hdem
    exact div_le_div_of_nonneg_right hw hlb.le
  unfold target_stock
  have hzq : (0 : ℚ) ≤ (hz : ℚ) := by exact_mod_cast (by omega : (0 : Int) ≤ hz)
  have hm1 := mul_le_mul_of_nonneg_right hda hzq
  have hm2 := mul_le_mul_of_nonneg_right hda hsf
  linarith

/-- C8 witness: moving from an empty window to one sale of 7 units. -/
theorem C8_monotone_in_demand_witness :
    ∃ r r', suggest defaultConfig ⟨1, "A", 5, 10⟩ [] 7 7 = Except.ok r ∧
      suggest defaultConfig ⟨1, "A", 5, 10⟩ [⟨0, 7⟩] 7 7 = Except.ok r' ∧
      r.suggested_order_qty ≤ r'.suggested_order_qty :=
  C8_monotone_in_demand defaultConfig ⟨1, "A", 5, 10⟩ [] [⟨0, 7⟩] 7 7
    safety_factor_nonneg (by decide) (by decide) (by decide) (by decide)
    (by simp [windowTotal])

/-- C9: the engine is stateless and deterministic: in any sequence of calls,
the result at each position is exactly `suggest` of that position's own
input, unaffected by the calls made before or after it; identical inputs
therefore always yield identical outputs. -/
theorem C9_stateless_deterministic (cfg : EngineConfig)
    (pre post : List (StockState × List SaleRecord × Int × Int))
    (q : StockState × List SaleRecord × Int × Int) :
    (suggestSeq cfg (pre ++ q :: post))[pre.length]? =
      some (suggest cfg q.1 q.2.1 q.2.2.1 q.2.2.2) := by
  induction pre with
  | nil => simp [suggestSeq]
  | cons a t ih => simpa [suggestSeq] using ih

/-! ## The deployed public interface (frontend API client) -/

/-- Shape of an HTTP request issued by the frontend API client. -/
structure ApiCall where
  method : String
  path : String
  params : List (String × Int)
  deriving DecidableEq, Repr

/-- Embeds `getReorderSuggestions` from `frontend/src/lib/api.ts`: a GET to
`/reorder/suggestions` with the single query parameter `days`. -/
def getReorderSuggestions (days : Int) : ApiCall :=
  { method := "GET", path := "/reorder/suggestions", params := [("days", days)] }

/-- A call that omits the argument uses the TypeScript default `days = 7`. -/
def getReorderSuggestionsDefault : ApiCall :=
  getReorderSuggestions 7

/-- Embeds the query of `frontend/src/app/reorder/page.tsx`:
`apiClient.getReorderSuggestions(7)`. -/
def reorderPageCall : ApiCall :=
  getReorderSuggestions 7

/-- Embeds the dashboard page query: `apiClient.getReorderSuggestions(7)`. -/
def dashboardPageCall : ApiCall :=
  getReorderSuggestions 7

/-- C10: every `getReorderSuggestions(days)` call is a GET to
`/reorder/suggestions` carrying exactly the one window parameter `days`
(so lookback and horizon cannot be chosen independently), the omitted-argument
form defaults to 7, and both consuming pages invoke it with `days = 7`. -/
theorem C10_reorder_api_window (days : Int) :
    (getReorderSuggestions days).method = "GET" ∧
    (getReorderSuggestions days).path = "/reorder/suggestions" ∧
    (getReorderSuggestions days).params = [("days", days)] ∧
    (getReorderSuggestions days).params.length = 1 ∧
    getReorderSuggestionsDefault = getReorderSuggestions 7 ∧
    reorderPageCall = getReorderSuggestions 7 ∧
    dashboardPageCall = getReorderSuggestions 7 :=
  ⟨rfl, rfl, rfl, rfl, rfl, rfl, rfl⟩

end PharmaRec
